import Mathlib

/-!
Verification of the outbound RADIUS client transport module
(src/modules/rlm_radius2/bio.c and src/lib/bio/packet.h).

The C sources are shallowly embedded: each C function that a claim is
about is translated into an executable Lean definition on explicit
state.  Machine integers are modelled as Nat (unsigned fields) or Int
(fr_time_t, which is a signed nanosecond count); fr_time_wrap(0) is the
integer 0.  Functions whose observable behaviour is a sequence of calls
into the trunk / event-loop API are modelled as functions returning a
list of effects, in the order the C code performs them.
-/

namespace FreeRadiusBio

/-! ### RADIUS protocol constants

The packet-code values are the standard RADIUS code assignments used by
the module (the spec fixes header length 20, authenticator offset 4 and
the attribute numbers for Error-Cause and Extended-Attribute-1). -/

def FR_RADIUS_CODE_ACCESS_REQUEST : Nat := 1

def FR_RADIUS_CODE_ACCESS_ACCEPT : Nat := 2

def FR_RADIUS_CODE_ACCESS_REJECT : Nat := 3

def FR_RADIUS_CODE_ACCOUNTING_REQUEST : Nat := 4

def FR_RADIUS_CODE_ACCOUNTING_RESPONSE : Nat := 5

def FR_RADIUS_CODE_ACCESS_CHALLENGE : Nat := 11

def FR_RADIUS_CODE_STATUS_SERVER : Nat := 12

def FR_RADIUS_CODE_DISCONNECT_ACK : Nat := 41

def FR_RADIUS_CODE_DISCONNECT_NAK : Nat := 42

def FR_RADIUS_CODE_COA_ACK : Nat := 44

def FR_RADIUS_CODE_COA_NAK : Nat := 45

def FR_RADIUS_CODE_PROTOCOL_ERROR : Nat := 52

def FR_RADIUS_CODE_MAX : Nat := 53

def RADIUS_HEADER_LENGTH : Nat := 20

/-- Attribute number of Error-Cause (spec: attribute 101). -/
def ATTR_ERROR_CAUSE : Nat := 101

/-- Modelled from the spec: the dictionary entry behind
attr_response_length is not under src/; the standard Response-Length
attribute number (RFC 7930) is 165. -/
def ATTR_RESPONSE_LENGTH : Nat := 165

/-- Attribute number of Extended-Attribute-1 (spec: type=241). -/
def ATTR_EXTENDED_ATTRIBUTE_1 : Nat := 241

/-- Modelled from the spec: the dictionary entry behind
attr_original_packet_code is not under src/; the standard
Original-Packet-Code extended type (RFC 7930) is 4. -/
def ATTR_ORIGINAL_PACKET_CODE : Nat := 4

/-! ### Module result codes -/

/-- The module return codes used by bio.c (rlm_rcode_t). -/
inductive RlmRcode where
  | reject
  | fail
  | ok
  | handled
  | invalid
  | disallow
  | notfound
  | noop
  | updated
  deriving DecidableEq, Repr

/-- Modelled from the spec: the numeric values of the rlm_rcode_t enum
are declared outside src/, and the C table radius_code_to_rcode
zero-initialises every entry that is not listed explicitly.  The spec's
mapping table says that every response code without an explicit row maps
to FAIL, so the zero entry of the table is modelled as FAIL. -/
def rlm_rcode_table_default : RlmRcode := .fail

/-- Embedding of the  static rlm_rcode_t radius_code_to_rcode[]  table
(bio.c lines 136-150): the nine explicitly initialised entries, with
every other index holding the zero-initialised default. -/
def radius_code_to_rcode (code : Nat) : RlmRcode :=
  if code = FR_RADIUS_CODE_ACCESS_ACCEPT then .ok
  else if code = FR_RADIUS_CODE_ACCESS_CHALLENGE then .updated
  else if code = FR_RADIUS_CODE_ACCESS_REJECT then .reject
  else if code = FR_RADIUS_CODE_ACCOUNTING_RESPONSE then .ok
  else if code = FR_RADIUS_CODE_COA_ACK then .ok
  else if code = FR_RADIUS_CODE_COA_NAK then .reject
  else if code = FR_RADIUS_CODE_DISCONNECT_ACK then .ok
  else if code = FR_RADIUS_CODE_DISCONNECT_NAK then .reject
  else if code = FR_RADIUS_CODE_PROTOCOL_ERROR then .handled
  else rlm_rcode_table_default

/-! ### Request prioritisation (bio.c request_prioritise, lines 935-959) -/

/-- The fields of bio_request_t that request_prioritise reads:
status_check flag, priority (uint32) and recv_time (fr_time_t). -/
structure BioRequestKey where
  status_check : Bool
  priority : Nat
  recv_time : Int
  deriving DecidableEq, Repr

/-- C bool arithmetic: a bool converts to 0 or 1. -/
def boolVal : Bool → Int
  | true => 1
  | false => 0

/-- Modelled from the spec: the CMP macro applied to the priority fields
is defined outside src/.  The in-file comment and the spec both state
that a larger priority value is more important (goes to the top of the
heap, i.e. compares negative), so it is modelled as a prefer-larger
three-way comparison. -/
def cmp_priority (a b : Nat) : Int :=
  if b < a then -1 else if a < b then 1 else 0

/-- Modelled from the spec: the CMP_PREFER_SMALLER macro applied to the
unwrapped recv_time values is defined outside src/.  The in-file comment
and the spec state that a smaller (earlier) timestamp is more important,
so it is modelled as a prefer-smaller three-way comparison. -/
def cmp_prefer_smaller (a b : Int) : Int :=
  if a < b then -1 else if b < a then 1 else 0

/-- Embedding of request_prioritise: negative puts a at the top of the
heap, positive puts b at the top.  First the status_check flags are
compared by C bool subtraction, then the priorities, then the receive
timestamps. -/
def request_prioritise (a b : BioRequestKey) : Int :=
  let ret := boolVal b.status_check - boolVal a.status_check
  if ret ≠ 0 then ret
  else
    let ret := cmp_priority a.priority b.priority
    if ret ≠ 0 then ret
    else cmp_prefer_smaller a.recv_time b.recv_time

/-! ### Connection liveness: check_for_zombie (bio.c lines 1231-1288) -/

/-- The rlm_radius operating modes (RLM_RADIUS_MODE_*). -/
inductive RlmRadiusMode where
  | invalid
  | proxy
  | client
  | replicate
  deriving DecidableEq, Repr

/-- The configuration fields of the module instance that
check_for_zombie reads. -/
structure ZombieInst where
  mode : RlmRadiusMode
  response_window : Int
  zombie_period : Int
  /-- whether status checks are configured (inst->status_check) -/
  status_check : Bool
  deriving DecidableEq, Repr

/-- The fields of bio_handle_t that check_for_zombie reads. -/
structure ZombieHandle where
  status_checking : Bool
  /-- whether the zombie timer is armed (h->zombie_ev non-NULL) -/
  zombie_ev : Bool
  last_reply : Int
  deriving DecidableEq, Repr

/-- The five exit paths of check_for_zombie, in source order:
alreadyChecking is the early  return true  for a connection already
status-checking or with the zombie timer armed; aliveReply is the
return false  when last_reply >= last_sent; aliveWindow is the
return false  on the PROXY response-window test; zombieStatusCheck and
zombieTimer are the two arms of the transition block (both return
true after signalling the trunk connection inactive). -/
inductive ZombieOutcome where
  | alreadyChecking
  | aliveReply
  | aliveWindow
  | zombieStatusCheck
  | zombieTimer
  deriving DecidableEq, Repr

/-- Embedding of check_for_zombie.  now0 is the now argument; clock is
the value fr_time() would return, used when now0 is fr_time_wrap(0);
last_sent is the last_sent argument (the callers pass retry->start). -/
def check_for_zombie (inst : ZombieInst) (h : ZombieHandle)
    (now0 clock last_sent : Int) : ZombieOutcome :=
  if h.status_checking ∨ h.zombie_ev then .alreadyChecking
  else
    let now := if now0 = 0 then clock else now0
    if h.last_reply ≥ last_sent then .aliveReply
    else if inst.mode = .proxy ∧ last_sent > 0 ∧
            last_sent + inst.response_window < now then .aliveWindow
    else if inst.status_check then .zombieStatusCheck
    else .zombieTimer

/-- The boolean value check_for_zombie returns for each outcome. -/
def zombie_returns : ZombieOutcome → Bool
  | .alreadyChecking => true
  | .aliveReply => false
  | .aliveWindow => false
  | .zombieStatusCheck => true
  | .zombieTimer => true

/-- Whether the outcome is the transition block: the connection is
signalled inactive and enters the ZOMBIE handling (status checks are
enqueued, or the zombie timer is armed). -/
def zombie_transitions : ZombieOutcome → Bool
  | .zombieStatusCheck => true
  | .zombieTimer => true
  | _ => false

/-! ### Protocol-Error handling (bio.c protocol_error_reply, lines 1603-1712) -/

/-- Receive buffer of a connection handle: the byte contents and the
allocation size h->buflen.  Bytes past the initialised contents are not
modelled (C leaves them uninitialised). -/
structure BioHandleBuf where
  buffer : List Nat
  buflen : Nat
  deriving DecidableEq, Repr

/-- Read one byte of the receive buffer (C pointer indexing). -/
def byteAt (buf : List Nat) (i : Nat) : Nat := buf.getD i 0

/-- Big-endian 16-bit read (fr_nbo_to_uint16). -/
def be16 (buf : List Nat) (i : Nat) : Nat :=
  256 * byteAt buf i + byteAt buf (i + 1)

/-- Big-endian 32-bit read.  Used both for the Error-Cause value (the C
code memcpy's 4 bytes and applies ntohl, i.e. a network-order read) and
for the Response-Length value (the C code memcpy's the 4 bytes into a
uint32 in host memory order; the model reads them in the order they sit
in the buffer, which is the attribute's network-order value). -/
def be32 (buf : List Nat) (i : Nat) : Nat :=
  16777216 * byteAt buf i + 65536 * byteAt buf (i + 1) +
    256 * byteAt buf (i + 2) + byteAt buf (i + 3)

/-- Result of the attribute scan loop of protocol_error_reply: failed
is one of the two early  return  paths that store RLM_MODULE_FAIL
(non-zero padding bytes, or Original-Packet-Code different from the
request's code); done carries the error_601 flag and response_length
accumulated when the loop runs off the end of the packet. -/
inductive PeScan where
  | failed
  | done (error601 : Bool) (responseLength : Nat)
  deriving DecidableEq, Repr

/-- Embedding of the  for (attr = buffer + 20; attr < end; attr += attr[1])
loop of protocol_error_reply.  fuel bounds the iteration count; since
the C loop advances by attr[1] bytes each round, any packet whose
attribute lengths are at least 1 terminates within endIdx steps, so
callers pass fuel = endIdx + 1.  (A zero attribute length would make the
C loop spin forever; validated packets cannot contain one.) -/
def pe_scan (uCode : Nat) (buf : List Nat) (endIdx : Nat)
    (i : Nat) (error601 : Bool) (respLen : Nat) (fuel : Nat) : PeScan :=
  match fuel with
  | 0 => .done error601 respLen
  | fuel + 1 =>
    if i < endIdx then
      let t := byteAt buf i
      let l := byteAt buf (i + 1)
      if t = ATTR_ERROR_CAUSE ∧ l = 6 then
        pe_scan uCode buf endIdx (i + l)
          (error601 ∨ be32 buf (i + 2) = 601) respLen fuel
      else if t = ATTR_RESPONSE_LENGTH ∧ l = 6 then
        pe_scan uCode buf endIdx (i + l) error601 (be32 buf (i + 2)) fuel
      else if t ≠ ATTR_EXTENDED_ATTRIBUTE_1 then
        pe_scan uCode buf endIdx (i + l) error601 respLen fuel
      else if l ≠ 7 then
        pe_scan uCode buf endIdx (i + l) error601 respLen fuel
      else if byteAt buf (i + 2) ≠ ATTR_ORIGINAL_PACKET_CODE then
        pe_scan uCode buf endIdx (i + l) error601 respLen fuel
      else if byteAt buf (i + 3) ≠ 0 ∨ byteAt buf (i + 4) ≠ 0 ∨
              byteAt buf (i + 5) ≠ 0 then .failed
      else if byteAt buf (i + 6) ≠ uCode then .failed
      else pe_scan uCode buf endIdx (i + l) error601 respLen fuel
    else .done error601 respLen

/-- Result of protocol_error_reply: the rcode it stores into the result
slot (when the r argument is non-NULL; the status-check caller passes
NULL and the store is skipped, the control flow is otherwise identical)
together with the possibly reallocated receive buffer. -/
structure PeOut where
  rcode : RlmRcode
  handle : BioHandleBuf
  deriving DecidableEq, Repr

/-- Embedding of protocol_error_reply.  end is taken from the packet's
own length field (fr_nbo_to_uint16(buffer + 2)); after the scan, the
receive buffer is reallocated only when error_601 was seen, the parsed
response_length is non-zero and it exceeds the current buflen, in which
case the new size is clamped to [4096, 65535] and the  end - attr
bytes of the packet are copied into the new buffer. -/
def protocol_error_reply (uCode : Nat) (h : BioHandleBuf) : PeOut :=
  let endIdx := be16 h.buffer 2
  match pe_scan uCode h.buffer endIdx RADIUS_HEADER_LENGTH false 0 (endIdx + 1) with
  | .failed => { rcode := .fail, handle := h }
  | .done error601 responseLength =>
    if error601 ∧ responseLength ≠ 0 ∧ responseLength > h.buflen then
      let clamped := min (max responseLength 4096) 65535
      { rcode := .handled,
        handle := { buffer := h.buffer.take endIdx, buflen := clamped } }
    else { rcode := .handled, handle := h }

/-! ### Reply processing in request_demux (bio.c lines 1887-1931)

After a reply for a non-status-check request has been validated and
decoded, request_demux runs the Protocol-Error handler when the response
code is Protocol-Error, and then unconditionally stores the table
mapping of the response code into the result slot. -/

/-- Final result-slot value and receive buffer after the post-decode
processing of one non-status-check reply. -/
structure DemuxOut where
  rcode : RlmRcode
  handle : BioHandleBuf
  deriving DecidableEq, Repr

/-- Embedding of the tail of the request_demux loop body for a
non-status-check request: r0 is the rcode sitting in the result slot
before the reply is processed.  Note that the rcode stored by
protocol_error_reply is overwritten by the unconditional
r->rcode = radius_code_to_rcode[code]  that follows the switch. -/
def request_demux_process (uCode code : Nat) (r0 : RlmRcode)
    (h : BioHandleBuf) : DemuxOut :=
  let step : RlmRcode × BioHandleBuf :=
    if code = FR_RADIUS_CODE_PROTOCOL_ERROR then
      let pe := protocol_error_reply uCode h
      (pe.rcode, pe.handle)
    else (r0, h)
  { rcode := radius_code_to_rcode code, handle := step.2 }

/-! ### Signals, retries and writes -/

/-- The observable calls the signal / retry handlers make, in source
order.  callCheckForZombie is a call to check_for_zombie; callModWrite
is a call to mod_write (a (re)transmission attempt); setIsRetry is the
r->is_retry = true  store; storeRetry is the  u->retry = *retry  copy;
setRcodeFail / signalFail are  r->rcode = RLM_MODULE_FAIL  and
trunk_request_signal_fail; cancelTreq is trunk_request_signal_cancel;
freeResult is  talloc_free(r). -/
inductive Effect where
  | freeResult
  | cancelTreq
  | setIsRetry
  | callModWrite
  | callCheckForZombie
  | storeRetry
  | setRcodeFail
  | signalFail
  deriving DecidableEq, Repr

/-- The signal actions dispatched to mod_signal (fr_signal_t); other
covers every action the switch ignores through its default case. -/
inductive FrSignal where
  | dup
  | cancel
  | other
  deriving DecidableEq, Repr

/-- Embedding of mod_signal (bio.c lines 2057-2125): treqPresent is
whether r->treq is non-NULL; writeBlocked is h->fd_info->write_blocked
of the connection the request sits on. -/
def mod_signal (mode : RlmRadiusMode) (action : FrSignal)
    (treqPresent writeBlocked : Bool) : List Effect :=
  if action = .dup ∧ mode ≠ .proxy then []
  else if ¬treqPresent then [.freeResult]
  else
    match action with
    | .cancel => [.cancelTreq, .freeResult]
    | .dup => if writeBlocked then [] else [.setIsRetry, .callModWrite]
    | .other => []

/-- The retry-engine verdicts delivered to mod_retry (fr_retry_state_t). -/
inductive FrRetryStep where
  | cont
  | mrd
  | mrc
  deriving DecidableEq, Repr

/-- The trunk request states distinguished by mod_retry
(trunk_request_state_t). -/
inductive TrunkReqState where
  | init
  | unassigned
  | backlog
  | pending
  | partialWrite
  | sent
  | reapable
  | complete
  | failed
  | cancel
  | cancelSent
  | cancelPartialWrite
  | cancelComplete
  deriving DecidableEq, Repr

/-- The failure tail of mod_retry (bio.c lines 1369-1377):
r->rcode = RLM_MODULE_FAIL, trunk_request_signal_fail, and then
check_for_zombie unless the request has no connection or the module is
in replicate mode. -/
def mod_retry_fail_effects (mode : RlmRadiusMode) (tconnPresent : Bool) :
    List Effect :=
  [.setRcodeFail, .signalFail] ++
    (if tconnPresent ∧ mode ≠ .replicate then [.callCheckForZombie] else [])

/-- Embedding of mod_retry (bio.c lines 1294-1378).  On CONTINUE the
retry state is copied into the request, then the trunk state decides:
BACKLOG / PENDING / PARTIAL return after a debug message; SENT returns
after suppressing on a blocked connection or setting is_retry and
calling mod_write; every other state hits fr_assert(0) (compiled out
under NDEBUG) and falls through — like MRD and MRC — to the failure
tail. -/
def mod_retry (mode : RlmRadiusMode) (step : FrRetryStep)
    (st : TrunkReqState) (tconnPresent writeBlocked : Bool) : List Effect :=
  match step with
  | .cont =>
    match st with
    | .backlog => [.storeRetry]
    | .pending => [.storeRetry]
    | .partialWrite => [.storeRetry]
    | .sent =>
      if writeBlocked then [.storeRetry]
      else [.storeRetry, .setIsRetry, .callModWrite]
    | _ => .storeRetry :: mod_retry_fail_effects mode tconnPresent
  | .mrd => mod_retry_fail_effects mode tconnPresent
  | .mrc => mod_retry_fail_effects mode tconnPresent

/-- The three ways mod_write (bio.c lines 1397-1470) prepares the bytes
it hands to fr_bio_write: resume a partial write, or — when the request
has no encoded packet — reserve a tracking ID and encode, or — when the
encoded packet is still attached — retransmit it as-is (no new ID is
reserved, the bytes are reused). -/
inductive WritePlan where
  | partialResume
  | reserveAndEncode
  | retransmitExisting
  deriving DecidableEq, Repr

/-- Embedding of the branch structure at the top of mod_write:
partialLen is u->partial, hasPacket is whether u->packet is non-NULL. -/
def mod_write_plan (partialLen : Nat) (hasPacket : Bool) : WritePlan :=
  if partialLen ≠ 0 then .partialResume
  else if ¬hasPacket then .reserveAndEncode
  else .retransmitExisting

/-! ### Request submission: mod_enqueue (bio.c lines 2159-2300) -/

/-- Socket types distinguished by mod_enqueue (SOCK_DGRAM vs stream). -/
inductive SocketType where
  | dgram
  | stream
  deriving DecidableEq, Repr

/-- The trunk_request_enqueue outcomes (trunk_enqueue_t). -/
inductive TrunkEnqueueResult where
  | ok
  | inBacklog
  | noCapacity
  | dstUnavailable
  | enqueueFail
  deriving DecidableEq, Repr

/-- Which retry configuration mod_enqueue hands to
unlang_module_yield_to_retry: the per-code inst->retry[u->code] table
entry, or inst->timeout_retry. -/
inductive RetryChoice where
  | perCode (code : Nat)
  | timeoutRetry
  deriving DecidableEq, Repr

/-- The observable side steps of mod_enqueue. -/
inductive EnqueueEffect where
  | allocTreq
  | enqueueTrunk
  | freeTreq
  deriving DecidableEq, Repr

/-- The overall outcome of mod_enqueue: an immediate module return of
NOOP or FAIL, or a yield carrying the proxied flag and the chosen retry
configuration. -/
inductive EnqueueOutcome where
  | noop
  | modFail
  | yielded (proxied : Bool) (retry : RetryChoice)
  deriving DecidableEq, Repr

/-- The inputs mod_enqueue inspects: the module mode and socket type,
the request's packet code, the parent-compatibility data used by the
PROXY arm (request->parent presence, fr_dict_compatible, the parent's
packet code, request->client->cs presence), and the results of the two
fallible trunk calls. -/
structure EnqueueArgs where
  mode : RlmRadiusMode
  socketType : SocketType
  code : Nat
  hasParent : Bool
  dictCompatible : Bool
  parentCode : Nat
  clientCsPresent : Bool
  treqAllocOk : Bool
  trunkResult : TrunkEnqueueResult
  deriving DecidableEq, Repr

/-- The u->proxied computation of the PROXY arm (bio.c lines 2257-2266):
without a parent, proxied mirrors request->client->cs != NULL; with an
incompatible parent dictionary it is false; otherwise it is whether the
parent's packet code equals the submitted code.  Outside PROXY mode the
flag keeps its talloc_zero value false. -/
def mod_enqueue_proxied (a : EnqueueArgs) : Bool :=
  a.mode = .proxy ∧
    (if ¬a.hasParent then a.clientCsPresent
     else if ¬a.dictCompatible then false
     else a.parentCode = a.code)

/-- Embedding of mod_enqueue.  Status-Server is rejected with NOOP
before anything is allocated; a failed trunk_request_alloc returns FAIL;
NO_CAPACITY / DST_UNAVAILABLE / FAIL enqueue results free the trunk
request and return FAIL; otherwise the mode switch picks the retry
configuration (the PROXY arm falls through to CLIENT when the request is
not proxied, and CLIENT falls through to REPLICATE on a stream socket)
and the request yields. -/
def mod_enqueue (a : EnqueueArgs) : EnqueueOutcome × List EnqueueEffect :=
  if a.code = FR_RADIUS_CODE_STATUS_SERVER then (.noop, [])
  else if ¬a.treqAllocOk then (.modFail, [.allocTreq])
  else
    match a.trunkResult with
    | .ok | .inBacklog =>
      match a.mode with
      | .invalid => (.modFail, [.allocTreq, .enqueueTrunk])
      | _ =>
        let proxied := mod_enqueue_proxied a
        let retry : RetryChoice :=
          if proxied then .timeoutRetry
          else if (a.mode = .proxy ∨ a.mode = .client) ∧
                  a.socketType = .dgram then .perCode a.code
          else .timeoutRetry
        (.yielded proxied retry, [.allocTreq, .enqueueTrunk])
    | _ => (.modFail, [.allocTreq, .enqueueTrunk, .freeTreq])

/-! ### fr_bio_packet_write (src/lib/bio/packet.h lines 128-142) -/

/-- Modelled from the spec: the numeric value of
fr_bio_error(IO_WOULD_BLOCK) comes from lib/bio/base.h, which is not
under src/; it is a fixed negative error code, modelled as -4.  The
claims depend only on it being non-zero and on equality with itself. -/
def fr_bio_error_io_would_block : Int := -4

/-- Return value, resulting write_blocked flag, and whether the
underlying bio write function was invoked. -/
structure PacketWriteOut where
  ret : Int
  write_blocked : Bool
  invoked : Bool
  deriving DecidableEq, Repr

/-- Embedding of fr_bio_packet_write: if the bio is already
write-blocked it returns IO_WOULD_BLOCK without calling my->write;
otherwise my->write runs (its return value is the underlyingRet
parameter), a zero return is passed through with the flag untouched, and
any non-zero return sets write_blocked to whether the error was
IO_WOULD_BLOCK. -/
def fr_bio_packet_write (write_blocked : Bool) (underlyingRet : Int) :
    PacketWriteOut :=
  if write_blocked then
    { ret := fr_bio_error_io_would_block, write_blocked := true, invoked := false }
  else if underlyingRet = 0 then
    { ret := 0, write_blocked := false, invoked := true }
  else
    { ret := underlyingRet,
      write_blocked := underlyingRet = fr_bio_error_io_would_block,
      invoked := true }

/-! ## Theorems -/

/-- A proxy-mode instance with a 100ns response window and status
checks disabled, used to exercise check_for_zombie. -/
def cexZombieInst : ZombieInst :=
  { mode := .proxy, response_window := 100, zombie_period := 1000,
    status_check := false }

/-- A connection handle that is not status-checking, has no zombie
timer armed, and has never received a reply. -/
def cexZombieHandle : ZombieHandle :=
  { status_checking := false, zombie_ev := false, last_reply := 0 }

/-- Claim C1, counterexample: in PROXY mode with last_sent = 10,
response_window = 100 and now = 300 (so now - last_sent = 290 is at
least the response window) on a connection that is not status-checking
and has no zombie timer armed, check_for_zombie takes the aliveWindow
branch: it returns false and the connection does NOT transition to
ZOMBIE, contradicting the claim that every such call transitions.  The
source condition (bio.c line 1256-1257) returns false — stays alive —
precisely when last_sent + response_window < now. -/
theorem check_for_zombie_window_cex :
    cexZombieHandle.status_checking = false ∧
    cexZombieHandle.zombie_ev = false ∧
    cexZombieInst.mode = .proxy ∧
    (10 : Int) > 0 ∧
    (300 : Int) - 10 ≥ cexZombieInst.response_window ∧
    check_for_zombie cexZombieInst cexZombieHandle 300 300 10 = .aliveWindow ∧
    zombie_returns (check_for_zombie cexZombieInst cexZombieHandle 300 300 10) = false ∧
    zombie_transitions (check_for_zombie cexZombieInst cexZombieHandle 300 300 10) = false := by
  decide

/-- Claim C1 (amended): for every invocation of check_for_zombie on a
connection that is not already status-checking and has no zombie timer
armed: it returns false when last_reply >= last_sent; in PROXY mode,
when last_sent > 0 and now - last_sent is STRICTLY GREATER than
response_window (and no reply arrived since the send), it returns false
without transitioning; and every transition to ZOMBIE satisfies
last_reply < last_sent and, in PROXY mode with last_sent > 0,
now - last_sent <= response_window. -/
theorem check_for_zombie_spec (inst : ZombieInst) (h : ZombieHandle)
    (now clock last_sent : Int)
    (hsc : h.status_checking = false) (hev : h.zombie_ev = false)
    (hnow : now ≠ 0) :
    (h.last_reply ≥ last_sent →
      check_for_zombie inst h now clock last_sent = .aliveReply ∧
      zombie_returns (check_for_zombie inst h now clock last_sent) = false) ∧
    (inst.mode = .proxy → last_sent > 0 →
      now - last_sent > inst.response_window → h.last_reply < last_sent →
      check_for_zombie inst h now clock last_sent = .aliveWindow ∧
      zombie_transitions (check_for_zombie inst h now clock last_sent) = false) ∧
    (zombie_transitions (check_for_zombie inst h now clock last_sent) = true →
      h.last_reply < last_sent ∧
      (inst.mode = .proxy → last_sent > 0 →
        now - last_sent ≤ inst.response_window)) := by
  simp only [check_for_zombie, hsc, hev, hnow, if_neg, Bool.false_eq_true,
    or_self, if_false]
  refine ⟨fun hge => ?_, fun hm hpos hwin hlt => ?_, fun htr => ?_⟩
  · rw [if_pos hge]
    exact ⟨rfl, rfl⟩
  · rw [if_neg (by omega), if_pos ⟨hm, hpos, by omega⟩]
    exact ⟨rfl, rfl⟩
  · by_cases hge : h.last_reply ≥ last_sent
    · rw [if_pos hge] at htr
      exact absurd htr (by simp [zombie_transitions])
    · rw [if_neg hge] at htr
      refine ⟨by omega, fun hm hpos => ?_⟩
      by_cases hwin : last_sent + inst.response_window < now
      · rw [if_pos ⟨hm, hpos, hwin⟩] at htr
        exact absurd htr (by simp [zombie_transitions])
      · omega

/-- Claim C1, witness: applying check_for_zombie_spec at a concrete
state where a reply arrived after the last send. -/
theorem check_for_zombie_spec_witness :
    check_for_zombie cexZombieInst
      { status_checking := false, zombie_ev := false, last_reply := 20 }
      50 1 10 = .aliveReply :=
  ((check_for_zombie_spec cexZombieInst
      { status_checking := false, zombie_ev := false, last_reply := 20 }
      50 1 10 rfl rfl (by decide)).1 (by decide)).1

/-- Claim C2, counterexample: a DUP signal in PROXY mode on a live
trunk request with an unblocked connection performs the re-write
(setIsRetry then callModWrite) but never calls check_for_zombie — the
claim requires check_for_zombie to be called before the re-write, but
mod_signal's DUP arm (bio.c lines 2102-2120) contains no such call (the
only caller of check_for_zombie in the module is mod_retry). -/
theorem mod_signal_dup_cex :
    mod_signal .proxy .dup true false = [.setIsRetry, .callModWrite] ∧
    Effect.callModWrite ∈ mod_signal .proxy .dup true false ∧
    Effect.callCheckForZombie ∉ mod_signal .proxy .dup true false := by
  decide

/-- Claim C2 (amended): for every DUP signal delivered while a request
is yielded with a live trunk request: in PROXY mode the request is
re-transmitted on the same connection unless that connection is
write-blocked (in which case the retransmit is suppressed); in any
other mode the signal is ignored; before the re-write the request's
is_retry flag is set; and check_for_zombie is NOT called on the DUP
path. -/
theorem mod_signal_spec (mode : RlmRadiusMode)
    (treqPresent writeBlocked : Bool) :
    (mode ≠ .proxy → mod_signal mode .dup treqPresent writeBlocked = []) ∧
    (treqPresent = true → writeBlocked = true →
      mod_signal .proxy .dup treqPresent writeBlocked = []) ∧
    (treqPresent = true → writeBlocked = false →
      mod_signal .proxy .dup treqPresent writeBlocked =
        [.setIsRetry, .callModWrite]) ∧
    Effect.callCheckForZombie ∉ mod_signal mode .dup treqPresent writeBlocked := by
  cases mode <;> cases treqPresent <;> cases writeBlocked <;> decide

/-- Claim C2, witness: applying mod_signal_spec where the connection is
write-blocked, so the retransmit is suppressed. -/
theorem mod_signal_spec_witness :
    mod_signal .proxy .dup true true = [] :=
  (mod_signal_spec .proxy true true).2.1 rfl rfl

/-- Explicit case form of request_prioritise: status-check flags decide
first, then the priorities (prefer larger), then the receive times
(prefer smaller). -/
lemma request_prioritise_eq (x y : BioRequestKey) :
    request_prioritise x y =
      if x.status_check = y.status_check then
        if y.priority < x.priority then -1
        else if x.priority < y.priority then 1
        else if x.recv_time < y.recv_time then -1
        else if y.recv_time < x.recv_time then 1
        else 0
      else if x.status_check = true then -1 else 1 := by
  obtain ⟨sx, px, rx⟩ := x
  obtain ⟨sy, py, ry⟩ := y
  cases sx <;> cases sy <;>
    simp only [request_prioritise, boolVal, cmp_priority, cmp_prefer_smaller,
      Bool.false_eq_true, Bool.true_eq_false, if_true, if_false] <;>
    split_ifs <;> omega

set_option maxHeartbeats 1000000 in
/-- Claim C3: request_prioritise is a total order on the key triple
(status_check, priority, recv_time): a status-check request orders
before (compares negative against) any non-status-check request; with
equal status_check flags the larger priority orders first; with equal
flags and priorities the smaller recv_time orders first; the comparison
is zero exactly on equal keys, is antisymmetric, and is transitive. -/
theorem request_prioritise_total_order (a b c : BioRequestKey) :
    (a.status_check = true → b.status_check = false →
      request_prioritise a b < 0) ∧
    (a.status_check = b.status_check → b.priority < a.priority →
      request_prioritise a b < 0) ∧
    (a.status_check = b.status_check → a.priority = b.priority →
      a.recv_time < b.recv_time → request_prioritise a b < 0) ∧
    (request_prioritise a b = 0 ↔
      (a.status_check = b.status_check ∧ a.priority = b.priority ∧
        a.recv_time = b.recv_time)) ∧
    (request_prioritise b a = - request_prioritise a b) ∧
    (request_prioritise a b ≤ 0 → request_prioritise b c ≤ 0 →
      request_prioritise a c ≤ 0) := by
  refine ⟨?_, ?_, ?_, ?_, ?_, ?_⟩
  · intro h1 h2
    rw [request_prioritise_eq, h1, h2]
    norm_num
  · intro hs hp
    rw [request_prioritise_eq, if_pos hs, if_pos hp]
    norm_num
  · intro hs hp ht
    rw [request_prioritise_eq, if_pos hs, if_neg (by omega),
      if_neg (by omega), if_pos ht]
    norm_num
  · rw [request_prioritise_eq]
    by_cases hs : a.status_check = b.status_check
    · rw [if_pos hs]
      simp only [hs, eq_self_iff_true, true_and]
      split_ifs <;> first | omega | (rw [false_iff]; omega)
    · rw [if_neg hs]
      cases hsa : a.status_check <;> cases hsb : b.status_check <;>
        simp_all
  · rw [request_prioritise_eq a b, request_prioritise_eq b a]
    by_cases hs : a.status_check = b.status_check
    · rw [if_pos hs, if_pos hs.symm]
      split_ifs <;> omega
    · rw [if_neg hs, if_neg (fun h => hs h.symm)]
      cases hsa : a.status_check <;> cases hsb : b.status_check <;>
        simp_all
  · rw [request_prioritise_eq a b, request_prioritise_eq b c,
      request_prioritise_eq a c]
    cases hsa : a.status_check <;> cases hsb : b.status_check <;>
      cases hsc : c.status_check <;>
      simp only [hsa, hsb, hsc, Bool.false_eq_true, Bool.true_eq_false,
        eq_self_iff_true, if_true, if_false] <;>
      split_ifs <;> omega

/-- Claim C3, witness: a status-check request compares negative against
a non-status-check request of much larger priority. -/
theorem request_prioritise_total_order_witness :
    request_prioritise
      { status_check := true, priority := 0, recv_time := 5 }
      { status_check := false, priority := 9, recv_time := 1 } < 0 :=
  (request_prioritise_total_order
      { status_check := true, priority := 0, recv_time := 5 }
      { status_check := false, priority := 9, recv_time := 1 }
      { status_check := false, priority := 0, recv_time := 0 }).1 rfl rfl

/-- Claim C4: for every successfully decoded non-status-check reply,
the rcode delivered to the caller is exactly the image of the response
code under the radius_code_to_rcode table — Access-Accept,
Accounting-Response, CoA-ACK and Disconnect-ACK to OK; Access-Challenge
to UPDATED; Access-Reject, CoA-NAK and Disconnect-NAK to REJECT;
Protocol-Error to HANDLED; every other code to the table default FAIL —
regardless of the rcode that was previously in the result slot or that
protocol_error_reply stored. -/
theorem request_demux_rcode_spec (uCode code : Nat) (r0 : RlmRcode)
    (h : BioHandleBuf) :
    (request_demux_process uCode code r0 h).rcode = radius_code_to_rcode code ∧
    (code = FR_RADIUS_CODE_ACCESS_ACCEPT ∨
     code = FR_RADIUS_CODE_ACCOUNTING_RESPONSE ∨
     code = FR_RADIUS_CODE_COA_ACK ∨ code = FR_RADIUS_CODE_DISCONNECT_ACK →
      (request_demux_process uCode code r0 h).rcode = .ok) ∧
    (code = FR_RADIUS_CODE_ACCESS_CHALLENGE →
      (request_demux_process uCode code r0 h).rcode = .updated) ∧
    (code = FR_RADIUS_CODE_ACCESS_REJECT ∨ code = FR_RADIUS_CODE_COA_NAK ∨
     code = FR_RADIUS_CODE_DISCONNECT_NAK →
      (request_demux_process uCode code r0 h).rcode = .reject) ∧
    (code = FR_RADIUS_CODE_PROTOCOL_ERROR →
      (request_demux_process uCode code r0 h).rcode = .handled) ∧
    (code ≠ FR_RADIUS_CODE_ACCESS_ACCEPT ∧
     code ≠ FR_RADIUS_CODE_ACCOUNTING_RESPONSE ∧
     code ≠ FR_RADIUS_CODE_COA_ACK ∧ code ≠ FR_RADIUS_CODE_DISCONNECT_ACK ∧
     code ≠ FR_RADIUS_CODE_ACCESS_CHALLENGE ∧
     code ≠ FR_RADIUS_CODE_ACCESS_REJECT ∧ code ≠ FR_RADIUS_CODE_COA_NAK ∧
     code ≠ FR_RADIUS_CODE_DISCONNECT_NAK ∧
     code ≠ FR_RADIUS_CODE_PROTOCOL_ERROR →
      (request_demux_process uCode code r0 h).rcode = .fail) := by
  have hbase : (request_demux_process uCode code r0 h).rcode =
      radius_code_to_rcode code := rfl
  refine ⟨hbase, ?_, ?_, ?_, ?_, ?_⟩
  · rintro (rfl | rfl | rfl | rfl) <;> exact hbase
  · rintro rfl
    exact hbase
  · rintro (rfl | rfl | rfl) <;> exact hbase
  · rintro rfl
    exact hbase
  · rintro ⟨h2, h5, h44, h41, h11, h3, h45, h42, h52⟩
    rw [hbase]
    simp only [radius_code_to_rcode, rlm_rcode_table_default,
      if_neg h2, if_neg h11, if_neg h3, if_neg h5, if_neg h44, if_neg h45,
      if_neg h41, if_neg h42, if_neg h52]

/-- Claim C4, witness: a code with no explicit table row (here
Accounting-Request, 4) is delivered as FAIL. -/
theorem request_demux_rcode_spec_witness :
    (request_demux_process 1 4 .reject { buffer := [], buflen := 0 }).rcode =
      .fail :=
  (request_demux_rcode_spec 1 4 .reject
      { buffer := [], buflen := 0 }).2.2.2.2.2
    (by refine ⟨?_, ?_, ?_, ?_, ?_, ?_, ?_, ?_, ?_⟩ <;> decide)

/-- A Protocol-Error packet (code 52, length 32) carrying
Error-Cause = 601 (attribute 101, length 6, value 0x00000259) and
Response-Length = 8000 (attribute 165, length 6, value 0x00001F40). -/
def cexPacket601 : List Nat :=
  [52, 1, 0, 32] ++ List.replicate 16 0 ++
    [101, 6, 0, 0, 2, 89] ++ [165, 6, 0, 0, 31, 64]

/-- Claim C5, counterexample: the Protocol-Error packet cexPacket601
carries Error-Cause = 601 and Response-Length = 8000 (the attribute
scan returns done with error601 = true and responseLength = 8000), yet
on a connection whose receive buffer is already 65535 bytes the buffer
is NOT resized to clamp(8000, 4096, 65535) = 8000: the source only
reallocates when response_length exceeds the current buffer length
(bio.c line 1684), so the buffer stays at 65535 bytes. -/
theorem protocol_error_reply_growth_cex :
    pe_scan 4 cexPacket601 (be16 cexPacket601 2) RADIUS_HEADER_LENGTH
      false 0 (be16 cexPacket601 2 + 1) = .done true 8000 ∧
    min (max 8000 4096) 65535 = 8000 ∧
    (protocol_error_reply 4 { buffer := cexPacket601, buflen := 65535 }).handle.buflen = 65535 ∧
    (protocol_error_reply 4 { buffer := cexPacket601, buflen := 65535 }).handle.buflen ≠ 8000 := by
  refine ⟨by decide, by decide, by decide, by decide⟩

/-- Reading within the copied prefix of a truncated buffer gives the
original byte. -/
lemma byteAt_take (l : List Nat) (n i : Nat) (h : i < n) :
    byteAt (l.take n) i = byteAt l i := by
  induction l generalizing n i with
  | nil => simp [byteAt]
  | cons x xs ih =>
    cases n with
    | zero => omega
    | succ n =>
      cases i with
      | zero => simp [byteAt]
      | succ i =>
        simp only [List.take_succ_cons, byteAt, List.getD_cons_succ]
        exact ih n i (by omega)

/-- Claim C5 (amended): for a received Protocol-Error reply whose
attribute scan completes with error-601 flag e601 and parsed
Response-Length rl (and no Original-Packet-Code failure), the receive
buffer is reallocated exactly when e601 is set, rl is non-zero and rl
exceeds the current buffer length; the new length is
clamp(rl, 4096, 65535), the packet bytes below the packet's length
field are preserved in the new buffer, and the stored rcode is HANDLED;
in every other case the buffer is left untouched. -/
theorem protocol_error_reply_spec (uCode : Nat) (h : BioHandleBuf)
    (e601 : Bool) (rl : Nat)
    (hscan : pe_scan uCode h.buffer (be16 h.buffer 2) RADIUS_HEADER_LENGTH
      false 0 (be16 h.buffer 2 + 1) = .done e601 rl) :
    (e601 = true → rl ≠ 0 → rl > h.buflen →
      (protocol_error_reply uCode h).handle.buflen = min (max rl 4096) 65535 ∧
      (∀ i, i < be16 h.buffer 2 →
        byteAt (protocol_error_reply uCode h).handle.buffer i =
          byteAt h.buffer i) ∧
      (protocol_error_reply uCode h).rcode = .handled) ∧
    (¬(e601 = true ∧ rl ≠ 0 ∧ rl > h.buflen) →
      (protocol_error_reply uCode h).handle = h ∧
      (protocol_error_reply uCode h).rcode = .handled) := by
  constructor
  · intro he hnz hgt
    rw [protocol_error_reply]
    simp only [hscan]
    rw [if_pos ⟨he, hnz, hgt⟩]
    exact ⟨rfl, fun i hi => byteAt_take h.buffer (be16 h.buffer 2) i hi, rfl⟩
  · intro hno
    rw [protocol_error_reply]
    simp only [hscan]
    rw [if_neg hno]
    exact ⟨rfl, rfl⟩

/-- Claim C5, witness: the same packet received on a connection whose
buffer is 4096 bytes grows it to exactly 8000 bytes, preserving the
byte at the start of the Response-Length attribute. -/
theorem protocol_error_reply_spec_witness :
    (protocol_error_reply 4 { buffer := cexPacket601, buflen := 4096 }).handle.buflen = 8000 ∧
    byteAt (protocol_error_reply 4 { buffer := cexPacket601, buflen := 4096 }).handle.buffer 26 = 165 := by
  have hs := protocol_error_reply_spec 4
    { buffer := cexPacket601, buflen := 4096 } true 8000 (by decide)
  have hg := hs.1 rfl (by decide) (by decide)
  refine ⟨hg.1.trans (by decide), ?_⟩
  rw [hg.2.1 26 (by decide)]
  decide

/-- Claim C6, counterexample: an MRD verdict for a request sitting in
the BACKLOG (so with no connection assigned) in CLIENT mode fails the
request with FAIL but does NOT call check_for_zombie, although CLIENT
is not REPLICATE — the source skips the call whenever treq->tconn is
NULL (bio.c line 1375), not only in replicate mode. -/
theorem mod_retry_mrd_backlog_cex :
    mod_retry .client .mrd .backlog false false =
      [.setRcodeFail, .signalFail] ∧
    Effect.callCheckForZombie ∉ mod_retry .client .mrd .backlog false false ∧
    RlmRadiusMode.client ≠ .replicate := by
  decide

/-- Claim C6 (amended): for every firing of the retry callback: on
CONTINUE, the packet is re-emitted (mod_write is called) exactly when
the trunk entry is in SENT state and the connection is not
write-blocked, with the is_retry flag set first, while BACKLOG, PENDING
and PARTIAL entries suppress the retransmit; the re-emission path of
mod_write reuses the already-encoded bytes without reserving a new ID;
and on MRC or MRD the request is failed with FAIL and check_for_zombie
is called if and only if the request has a connection assigned and the
mode is not REPLICATE. -/
theorem mod_retry_spec (mode : RlmRadiusMode) (step : FrRetryStep)
    (st : TrunkReqState) (tconnPresent writeBlocked : Bool) :
    (step = .cont → st = .sent → writeBlocked = false →
      mod_retry mode step st tconnPresent writeBlocked =
        [.storeRetry, .setIsRetry, .callModWrite]) ∧
    (step = .cont → st = .sent → writeBlocked = true →
      mod_retry mode step st tconnPresent writeBlocked = [.storeRetry]) ∧
    (step = .cont → (st = .backlog ∨ st = .pending ∨ st = .partialWrite) →
      mod_retry mode step st tconnPresent writeBlocked = [.storeRetry] ∧
      Effect.callModWrite ∉ mod_retry mode step st tconnPresent writeBlocked) ∧
    ((step = .mrc ∨ step = .mrd) →
      mod_retry mode step st tconnPresent writeBlocked =
        mod_retry_fail_effects mode tconnPresent ∧
      Effect.setRcodeFail ∈ mod_retry mode step st tconnPresent writeBlocked ∧
      Effect.signalFail ∈ mod_retry mode step st tconnPresent writeBlocked ∧
      (Effect.callCheckForZombie ∈
          mod_retry mode step st tconnPresent writeBlocked ↔
        (tconnPresent = true ∧ mode ≠ .replicate))) ∧
    mod_write_plan 0 true = .retransmitExisting := by
  have hmrc : ∀ m s t w, mod_retry m .mrc s t w = mod_retry_fail_effects m t :=
    fun _ _ _ _ => rfl
  have hmrd : ∀ m s t w, mod_retry m .mrd s t w = mod_retry_fail_effects m t :=
    fun _ _ _ _ => rfl
  refine ⟨?_, ?_, ?_, ?_, rfl⟩
  · rintro rfl rfl rfl
    rfl
  · rintro rfl rfl rfl
    rfl
  · rintro rfl (rfl | rfl | rfl) <;>
      refine ⟨rfl, ?_⟩ <;>
      · show Effect.callModWrite ∉ [Effect.storeRetry]
        decide
  · rintro (rfl | rfl) <;>
      refine ⟨by rfl, ?_, ?_, ?_⟩ <;>
      simp only [hmrc, hmrd] <;>
      cases tconnPresent <;> cases mode <;> decide

/-- Claim C6, witness: an MRC verdict for a SENT request on a live
connection in CLIENT mode runs the failure tail including the
check_for_zombie call. -/
theorem mod_retry_spec_witness :
    mod_retry .client .mrc .sent true false =
      mod_retry_fail_effects .client true :=
  ((mod_retry_spec .client .mrc .sent true false).2.2.2.1 (Or.inl rfl)).1

/-- A Protocol-Error packet (code 52, length 27) whose only attribute
is Extended-Attribute-1 (241, length 7) carrying Original-Packet-Code
(extended type 4) with zero padding and code byte 1 — different from
the request code 4 used below. -/
def cexPacketOpc : List Nat :=
  [52, 1, 0, 27] ++ List.replicate 16 0 ++ [241, 7, 4, 0, 0, 0, 1]

/-- Claim C7: protocol_error_reply stores FAIL into the result slot for
a reply whose Original-Packet-Code byte (1) differs from the request's
code (4), exactly as the claim and the spec require — but the demux
loop then unconditionally overwrites the result slot with the table
image of the response code, so the caller is delivered HANDLED, not
FAIL.  The store of FAIL in protocol_error_reply (bio.c lines 1660,
1672) is dead in the demux path: the claim matches the evident intent
and the overwrite at bio.c line 1928 is the slip. -/
theorem protocol_error_opc_mismatch_bug :
    byteAt cexPacketOpc 26 = 1 ∧ (1 : Nat) ≠ 4 ∧
    (protocol_error_reply 4 { buffer := cexPacketOpc, buflen := 4096 }).rcode = .fail ∧
    (request_demux_process 4 FR_RADIUS_CODE_PROTOCOL_ERROR .fail
      { buffer := cexPacketOpc, buflen := 4096 }).rcode = .handled ∧
    RlmRcode.handled ≠ RlmRcode.fail := by
  refine ⟨by decide, by decide, by decide, by decide, by decide⟩

/-- Claim C8: the retry configuration chosen by mod_enqueue is decided
by mode and code — PROXY with a compatible parent packet of the same
code marks the request proxied and yields with timeout_retry; CLIENT
over a datagram socket yields with the per-code retry entry; CLIENT
over a stream socket and REPLICATE yield with timeout_retry; and no
stream-socket submission ever yields with a per-code retry entry. -/
theorem mod_enqueue_retry_spec (a : EnqueueArgs)
    (hcode : a.code ≠ FR_RADIUS_CODE_STATUS_SERVER)
    (halloc : a.treqAllocOk = true)
    (henq : a.trunkResult = .ok ∨ a.trunkResult = .inBacklog) :
    (a.mode = .proxy → a.hasParent = true → a.dictCompatible = true →
      a.parentCode = a.code →
      (mod_enqueue a).1 = .yielded true .timeoutRetry) ∧
    (a.mode = .client → a.socketType = .dgram →
      (mod_enqueue a).1 = .yielded false (.perCode a.code)) ∧
    (a.mode = .client → a.socketType = .stream →
      (mod_enqueue a).1 = .yielded false .timeoutRetry) ∧
    (a.mode = .replicate →
      (mod_enqueue a).1 = .yielded false .timeoutRetry) ∧
    (a.socketType = .stream → ∀ p rc, (mod_enqueue a).1 = .yielded p rc →
      rc = .timeoutRetry) := by
  have hyield : a.mode ≠ .invalid →
      (mod_enqueue a).1 = .yielded (mod_enqueue_proxied a)
        (if mod_enqueue_proxied a then .timeoutRetry
         else if (a.mode = .proxy ∨ a.mode = .client) ∧
                 a.socketType = .dgram then .perCode a.code
         else .timeoutRetry) := by
    intro hmode
    obtain ⟨mode, stype, code, hp, dc, pc, ccs, alloc, tr⟩ := a
    simp only at hcode halloc henq hmode ⊢
    subst halloc
    rcases henq with rfl | rfl <;> cases mode <;>
      first
        | exact absurd rfl hmode
        | simp [mod_enqueue, mod_enqueue_proxied, hcode]
  refine ⟨?_, ?_, ?_, ?_, ?_⟩
  · rintro hm hp dc hpc
    rw [hyield (by rw [hm]; decide)]
    have hpx : mod_enqueue_proxied a = true := by
      simp [mod_enqueue_proxied, hm, hp, dc, hpc]
    rw [hpx, if_pos rfl]
  · rintro hm hsock
    rw [hyield (by rw [hm]; decide)]
    have hpx : mod_enqueue_proxied a = false := by
      simp [mod_enqueue_proxied, hm]
    rw [hpx, if_neg (by simp), if_pos ⟨Or.inr hm, hsock⟩]
  · rintro hm hsock
    rw [hyield (by rw [hm]; decide)]
    have hpx : mod_enqueue_proxied a = false := by
      simp [mod_enqueue_proxied, hm]
    rw [hpx, if_neg (by simp), if_neg (by rw [hsock]; rintro ⟨-, h⟩; cases h)]
  · rintro hm
    rw [hyield (by rw [hm]; decide)]
    have hpx : mod_enqueue_proxied a = false := by
      simp [mod_enqueue_proxied, hm]
    rw [hpx, if_neg (by simp),
      if_neg (by rw [hm]; rintro ⟨(h | h), -⟩ <;> cases h)]
  · intro hsock p rc hres
    by_cases hmode : a.mode = .invalid
    · obtain ⟨mode, stype, code, hp, dc, pc, ccs, alloc, tr⟩ := a
      simp only at hcode halloc henq hmode hres
      subst halloc
      subst hmode
      rcases henq with rfl | rfl <;>
        simp [mod_enqueue, hcode] at hres
    · rw [hyield hmode] at hres
      have hcond : ¬((a.mode = .proxy ∨ a.mode = .client) ∧
          a.socketType = .dgram) := by
        rw [hsock]
        rintro ⟨-, h⟩
        cases h
      rw [if_neg hcond, ite_self] at hres
      exact ((EnqueueOutcome.yielded.injEq _ _ _ _).mp hres).2.symm

/-- Claim C8, witness: a CLIENT-mode Access-Request over a datagram
socket is armed with the per-code retry configuration. -/
theorem mod_enqueue_retry_spec_witness :
    (mod_enqueue
      { mode := .client, socketType := .dgram, code := 1, hasParent := false,
        dictCompatible := false, parentCode := 0, clientCsPresent := false,
        treqAllocOk := true, trunkResult := .ok }).1 =
      .yielded false (.perCode 1) :=
  (mod_enqueue_retry_spec
    { mode := .client, socketType := .dgram, code := 1, hasParent := false,
      dictCompatible := false, parentCode := 0, clientCsPresent := false,
      treqAllocOk := true, trunkResult := .ok }
    (by decide) rfl (Or.inl rfl)).2.1 rfl rfl

/-- Claim C9: a request submitted with packet code Status-Server is
rejected immediately with NOOP: mod_enqueue returns before
trunk_request_alloc and trunk_request_enqueue, so no trunk entry is
allocated and nothing is enqueued. -/
theorem mod_enqueue_status_server_noop (a : EnqueueArgs)
    (hcode : a.code = FR_RADIUS_CODE_STATUS_SERVER) :
    mod_enqueue a = (.noop, []) ∧
    EnqueueEffect.allocTreq ∉ (mod_enqueue a).2 ∧
    EnqueueEffect.enqueueTrunk ∉ (mod_enqueue a).2 := by
  have hm : mod_enqueue a = (.noop, []) := by
    rw [mod_enqueue, if_pos hcode]
  refine ⟨hm, ?_, ?_⟩ <;> rw [hm] <;> simp

/-- Claim C9, witness: a concrete Status-Server submission in CLIENT
mode returns NOOP with no side effects. -/
theorem mod_enqueue_status_server_noop_witness :
    mod_enqueue
      { mode := .client, socketType := .dgram, code := 12, hasParent := false,
        dictCompatible := false, parentCode := 0, clientCsPresent := false,
        treqAllocOk := true, trunkResult := .ok } = (.noop, []) :=
  (mod_enqueue_status_server_noop
    { mode := .client, socketType := .dgram, code := 12, hasParent := false,
      dictCompatible := false, parentCode := 0, clientCsPresent := false,
      treqAllocOk := true, trunkResult := .ok } rfl).1

/-- Claim C10: fr_bio_packet_write returns IO_WOULD_BLOCK without
invoking the underlying write when the bio is already write-blocked;
otherwise the underlying write runs, the call returns 0 exactly when
the underlying write returns 0, and after a non-zero return the
write_blocked flag is set if and only if the underlying write returned
IO_WOULD_BLOCK. -/
theorem fr_bio_packet_write_spec (blocked : Bool) (u : Int) :
    (blocked = true →
      fr_bio_packet_write blocked u =
        { ret := fr_bio_error_io_would_block, write_blocked := true,
          invoked := false }) ∧
    (blocked = false →
      (fr_bio_packet_write blocked u).invoked = true ∧
      ((fr_bio_packet_write blocked u).ret = 0 ↔ u = 0) ∧
      ((fr_bio_packet_write blocked u).ret ≠ 0 →
        ((fr_bio_packet_write blocked u).write_blocked = true ↔
          u = fr_bio_error_io_would_block))) := by
  constructor
  · rintro rfl
    rfl
  · rintro rfl
    by_cases hu : u = 0
    · subst hu
      refine ⟨rfl, by simp [fr_bio_packet_write], by simp [fr_bio_packet_write]⟩
    · refine ⟨by simp [fr_bio_packet_write, hu], ?_, ?_⟩
      · simp [fr_bio_packet_write, hu]
      · intro hr
        simp [fr_bio_packet_write, hu]

/-- Claim C10, witness: an underlying write returning IO_WOULD_BLOCK on
an unblocked bio marks the bio write-blocked. -/
theorem fr_bio_packet_write_spec_witness :
    (fr_bio_packet_write false fr_bio_error_io_would_block).write_blocked =
      true :=
  (((fr_bio_packet_write_spec false fr_bio_error_io_would_block).2
      rfl).2.2 (by decide)).2 rfl

end FreeRadiusBio
